import Mathlib

/-!
Shallow embedding of the quick-auth authentication library core
(src/core/engine.ts, src/strategies/jwt.ts, src/types/index.ts).

Modelling conventions:
* JavaScript objects with a fixed core plus open extra keys become a
  structure with the core fields plus an association list `extra`
  holding exactly the object's keys besides the core ones (`id`,
  `email`, `password` for a user). Extra keys may collide with JWT
  registered claim names: the token payload is itself modelled as a JS
  object (association list with in-place overwrite), so the source's
  spread shadowing — e.g. an extra named `sub` overwriting the subject
  claim — is carried faithfully. A runtime claim value that a
  string-typed core field cannot carry (a numeric subject) is
  represented by its decimal literal, noted where it happens.
* An absent (`undefined`) optional value becomes `Option.none`.
* Asynchronous calls that can reject become `Except String α`
  (the `String` is the thrown error's `.message`).
* bcrypt hashing/comparison, the storage adapter and lifecycle
  callbacks are environment parameters of the engine, mirroring the
  `AuthConfig` the `AuthEngine` constructor receives; storage state is
  threaded explicitly as a `List User`, with adapter lookups typed as
  pure reads and `createUser` as the one state-changing operation the
  register path performs.
* JWT token strings are modelled by their content: a well-formed signed
  token carries its claim set and the secret it was signed with;
  everything else is a malformed string.
-/

/-- A JSON-ish attribute value carried in a user's open extra fields. -/
inductive JVal where
  | str (s : String)
  | num (n : Int)
deriving DecidableEq, Repr

/-- `User` from src/types/index.ts: id, email, optional password hash,
plus open extra attributes. -/
structure User where
  id : String
  email : String
  password : Option String
  extra : List (String × JVal)
deriving DecidableEq, Repr

/-- `AuthResult` from src/types/index.ts. -/
structure AuthResult where
  success : Bool
  user : Option User := none
  token : Option String := none
  error : Option String := none
  errors : Option (List (String × String)) := none
deriving DecidableEq, Repr

/-- `CreateUserData` from src/types/index.ts: email, password, open rest. -/
structure CreateUserData where
  email : String
  password : String
  extra : List (String × JVal)
deriving DecidableEq, Repr

/-- `LoginCredentials` from src/types/index.ts. -/
structure LoginCredentials where
  email : String
  password : String
deriving DecidableEq, Repr

/-- Result of a configured custom cross-field validator
(`ValidationConfig.customValidator` in src/types/index.ts); its `errors`
map is optional in the TypeScript type. -/
structure CustomResult where
  success : Bool
  errors : Option (List (String × String))

/-- A single-field Zod rule, modelled as: value in, `none` when the value
passes, `some message` when it fails (the message is the ZodIssue text). -/
def StrRule := String → Option String

/-- A rule for an open extra field (its value is a `JVal`). -/
def FieldRule := JVal → Option String

/-- `ValidationConfig` from src/types/index.ts: optional email/password
rule overrides, extra declared fields, optional custom validator. -/
structure ValidationConfig where
  email : Option StrRule := none
  password : Option StrRule := none
  fields : List (String × FieldRule) := []
  customValidator : Option (CreateUserData → CustomResult) := none

/-- Split a character list on a separator character (structural, so the
kernel can evaluate it on witness inputs); always nonempty. -/
def splitOnChar (c : Char) : List Char → List (List Char)
  | [] => [[]]
  | x :: xs =>
    match splitOnChar c xs with
    | [] => [[]]
    | h :: t => if x = c then [] :: h :: t else (x :: h) :: t

/-- Executable model of Zod's `z.string().email()` syntactic check:
one `@` separating a nonempty local part from a domain of at least two
nonempty dot-separated labels. -/
def isValidEmail (s : String) : Bool :=
  match splitOnChar '@' s.data with
  | [localPart, domain] =>
    !localPart.isEmpty && !domain.isEmpty &&
      (let labels := splitOnChar '.' domain
       labels.length ≥ 2 && labels.all (fun l => !l.isEmpty))
  | _ => false

/-- Default email rule: `z.string().email('Invalid email format')`
(engine.ts line 17 and buildRegisterSchema). -/
def defaultEmailRule : StrRule := fun s =>
  if isValidEmail s then none else some "Invalid email format"

/-- Default register password rule:
`z.string().min(6, 'Password must be at least 6 characters')`. -/
def defaultRegisterPasswordRule : StrRule := fun s =>
  if s.length ≥ 6 then none else some "Password must be at least 6 characters"

/-- Login password rule: `z.string().min(1, 'Password is required')`. -/
def loginPasswordRule : StrRule := fun s =>
  if s.length ≥ 1 then none else some "Password is required"

/-- Association-list lookup for a user's extra attributes. -/
def lookupField (k : String) (l : List (String × JVal)) : Option JVal :=
  (l.find? (fun p => p.1 = k)).map Prod.snd

/-- One rule application yielding the ZodIssue list it contributes. -/
def issuesOf (field : String) (r : StrRule) (v : String) : List (String × String) :=
  match r v with
  | some m => [(field, m)]
  | none => []

/-- Issues contributed by the declared extra fields of the schema, in
declaration order; an absent declared field yields Zod's `Required`. -/
def extraFieldIssues (fields : List (String × FieldRule))
    (extra : List (String × JVal)) : List (String × String) :=
  fields.foldr
    (fun fr acc =>
      (match lookupField fr.1 extra with
       | none => [(fr.1, "Required")]
       | some v =>
         match fr.2 v with
         | some m => [(fr.1, m)]
         | none => []) ++ acc)
    []

/-- `schema.parse` for the effective register schema built by
`buildRegisterSchema` (engine.ts lines 39-58): email rule (override or
default), password rule (override or default), declared extra fields,
passthrough for everything else. Success returns the data unchanged
(string rules do not transform); failure carries the ZodError's issue
list in schema key order. -/
def parseRegisterSchema (vc : ValidationConfig) (d : CreateUserData) :
    Except (List (String × String)) CreateUserData :=
  let issues :=
    issuesOf "email" (vc.email.getD defaultEmailRule) d.email ++
    issuesOf "password" (vc.password.getD defaultRegisterPasswordRule) d.password ++
    extraFieldIssues vc.fields d.extra
  if issues.isEmpty then .ok d else .error issues

/-- `defaultLoginSchema.parse` (engine.ts lines 16-19): fixed schema,
email must be syntactically valid, password nonempty. -/
def parseLoginSchema (c : LoginCredentials) :
    Except (List (String × String)) LoginCredentials :=
  let issues :=
    issuesOf "email" defaultEmailRule c.email ++
    issuesOf "password" loginPasswordRule c.password
  if issues.isEmpty then .ok c else .error issues

/-- JS `errors[path] = msg`: replace in place if the key exists
(keeping its position), else append. -/
def assocSet (m : List (String × String)) (k v : String) : List (String × String) :=
  if m.any (fun p => p.1 = k) then
    m.map (fun p => if p.1 = k then (k, v) else p)
  else
    m ++ [(k, v)]

/-- `formatZodError` (engine.ts lines 60-69): fold the issue list into a
path → message map, skipping empty paths. -/
def formatZodError (issues : List (String × String)) : List (String × String) :=
  issues.foldl (fun m i => if i.1 = "" then m else assocSet m i.1 i.2) []

/-- `Object.values(errors)[0] || 'Validation failed'` (engine.ts 124). -/
def firstErrorOf (errors : List (String × String)) : String :=
  match errors with
  | [] => "Validation failed"
  | (_, m) :: _ => if m = "" then "Validation failed" else m

/-! ## Default token strategy (src/strategies/jwt.ts) -/

/-- `JWTStrategyConfig` after the constructor's `{expiresIn: '7d', ...config}`
default merge (jwt.ts lines 15-20): the secret, the expiry duration in
seconds (defaulting to 7 days), and optional issuer/audience. -/
structure JWTConfig where
  secret : String
  expiresIn : Nat := 604800
  issuer : Option String := none
  audience : Option String := none
deriving DecidableEq, Repr

/-- JS truthiness filter on an optional string option: `undefined` and
`""` are falsy, so `if (this.config.issuer) options.issuer = ...` keeps
only a nonempty string. -/
def optTruthy (o : Option String) : Option String :=
  o.bind (fun s => if s = "" then none else some s)

/-- JS truthiness of a claim value: the empty string and zero are falsy. -/
def jsTruthy : JVal → Bool
  | .str s => decide (s ≠ "")
  | .num n => decide (n ≠ 0)

/-- JS truthiness of a possibly-absent value (`!x` on a field read):
`undefined`, `""` and `0` are all falsy. -/
def jsFalsy (o : Option JVal) : Bool :=
  match o with
  | none => true
  | some v => !jsTruthy v

/-- JS object assignment on an association-list object: an existing key
is overwritten in place (keys are unique in a JS object), a new key is
appended. This is the semantics of the object spread and of
`obj[k] = v`. -/
def jsObjSet : List (String × JVal) → String → JVal → List (String × JVal)
  | [], k, v => [(k, v)]
  | p :: rest, k, v =>
    if p.1 = k then (k, v) :: rest else p :: jsObjSet rest k v

/-- A JWT string, modelled by content: a well-formed token carries its
signed payload object and the signing secret; any other string is
malformed. -/
inductive Token where
  | malformed (raw : String)
  | signed (payload : List (String × JVal)) (secret : String)
deriving DecidableEq, Repr

/-- The error classes the strategy's catch block distinguishes (jwt.ts
lines 48-56): `TokenExpiredError`; any other `JsonWebTokenError` (bad
structure, bad signature, not-before failure, issuer or audience
mismatch); and an exogenous non-JWT exception. The modelled library
raises only the first two classes — `otherErr` represents runtime
exceptions from outside it, and the strategy's catch-all for that case
is stated and exercised through `jwtStrategyHandle`. -/
inductive JwtError where
  | expired
  | badToken (msg : String)
  | otherErr (msg : String)
deriving DecidableEq, Repr

/-- The payload object `JWTStrategy.generateToken` builds (jwt.ts lines
60-66): `{sub: user.id, email: user.email, ...}` spread with every user
key except `id` and `password`. Under the model's User split (`extra`
holds exactly the object's keys besides `id`, `email`, `password`) the
spread re-assigns `email` (same value) and then each extra key in order —
so an extra named `sub` overwrites the subject claim, and extras named
after registered claims (`iat`, `exp`, `nbf`, `iss`, `aud`) land in the
payload and reach the signing library. -/
def jwtPayload (u : User) : List (String × JVal) :=
  (("email", JVal.str u.email) :: u.extra).foldl
    (fun m kv => jsObjSet m kv.1 kv.2)
    [("sub", JVal.str u.id), ("email", JVal.str u.email)]

/-- The tail of the sign model: write the computed `exp` and then the
truthy `audience`/`issuer` options into the payload (the library's
options-to-payload step). -/
def signFinalize (payload : List (String × JVal)) (e : Option Int)
    (issuer audience : Option String) : List (String × JVal) :=
  let p1 :=
    match e with
    | some x => jsObjSet payload "exp" (.num x)
    | none => payload
  let p2 :=
    match audience with
    | some a => jsObjSet p1 "aud" (.str a)
    | none => p1
  match issuer with
  | some i => jsObjSet p2 "iss" (.str i)
  | none => p2

/-- Model of the library's `sign(payload, secret, {expiresIn, issuer,
audience})` as called by `generateToken` (jwt.ts lines 68-74), options
already truthy-filtered: the library throws when the payload carries an
`exp` claim alongside `expiresIn`, or an `iss`/`aud` claim alongside the
matching option; otherwise it takes `payload.iat || now` as the
timestamp base (a numeric claim wins unless zero, which is falsy),
writes `iat` and `exp = base + expiresIn`, adds the option claims and
signs. For a non-empty string `iat` the real library computes the
expiry by JS string coercion; that arithmetic is not modelled — the
token keeps the claim and the model records no expiry (the library's
behavior when the coercion yields NaN). -/
def jwtSign (payload : List (String × JVal)) (secret : String)
    (expiresIn : Nat) (issuer audience : Option String) (now : Nat) :
    Except String Token :=
  if (lookupField "exp" payload).isSome then
    .error "Bad options.expiresIn option. The payload already has an exp property."
  else if issuer.isSome && (lookupField "iss" payload).isSome then
    .error "Bad options.issuer option. The payload already has an iss property."
  else if audience.isSome && (lookupField "aud" payload).isSome then
    .error "Bad options.audience option. The payload already has an aud property."
  else
    match lookupField "iat" payload with
    | some (JVal.num n) =>
      .ok (.signed
        (signFinalize
          (jsObjSet payload "iat" (.num (if n = 0 then (now : Int) else n)))
          (some ((if n = 0 then (now : Int) else n) + (expiresIn : Int)))
          issuer audience)
        secret)
    | some (JVal.str s) =>
      if s = "" then
        .ok (.signed
          (signFinalize (jsObjSet payload "iat" (.num (now : Int)))
            (some ((now : Int) + (expiresIn : Int))) issuer audience)
          secret)
      else
        .ok (.signed (signFinalize payload none issuer audience) secret)
    | none =>
      .ok (.signed
        (signFinalize (jsObjSet payload "iat" (.num (now : Int)))
          (some ((now : Int) + (expiresIn : Int))) issuer audience)
        secret)

/-- `JWTStrategy.generateToken` (jwt.ts lines 59-75): build the payload
(with the spread's shadowing) and sign it with the secret, the expiry
duration and the truthy issuer/audience options; signing may throw. -/
def jwtGenerateToken (cfg : JWTConfig) (u : User) (now : Nat) :
    Except String Token :=
  jwtSign (jwtPayload u) cfg.secret cfg.expiresIn (optTruthy cfg.issuer)
    (optTruthy cfg.audience) now

/-- Issuer/audience policy checks of the library's verify, applied after
the timestamp checks; an unset (or empty, hence falsy) option means no
check, and a missing or non-matching claim is a `JsonWebTokenError`. -/
def checkAudIss (cfg : JWTConfig) (payload : List (String × JVal)) :
    Except JwtError (List (String × JVal)) :=
  match optTruthy cfg.audience with
  | some a =>
    if lookupField "aud" payload = some (.str a) then
      match optTruthy cfg.issuer with
      | some i =>
        if lookupField "iss" payload = some (.str i) then .ok payload
        else .error (.badToken "jwt issuer invalid")
      | none => .ok payload
    else .error (.badToken "jwt audience invalid")
  | none =>
    match optTruthy cfg.issuer with
    | some i =>
      if lookupField "iss" payload = some (.str i) then .ok payload
      else .error (.badToken "jwt issuer invalid")
    | none => .ok payload

/-- The expiry check of the library's verify: an absent `exp` claim
means no expiry, a non-numeric one is a `JsonWebTokenError`, and
`TokenExpiredError` is raised exactly when the clock has reached the
numeric `exp`. -/
def checkExp (cfg : JWTConfig) (payload : List (String × JVal))
    (now : Nat) : Except JwtError (List (String × JVal)) :=
  match lookupField "exp" payload with
  | some (JVal.num e) =>
    if (now : Int) ≥ e then .error .expired else checkAudIss cfg payload
  | some (JVal.str _) => .error (.badToken "invalid exp value")
  | none => checkAudIss cfg payload

/-- The not-before check of the library's verify, run before the expiry
check: a numeric `nbf` in the future raises `NotBeforeError` (a
`JsonWebTokenError`), a non-numeric one is invalid. -/
def checkNbf (cfg : JWTConfig) (payload : List (String × JVal))
    (now : Nat) : Except JwtError (List (String × JVal)) :=
  match lookupField "nbf" payload with
  | some (JVal.num n) =>
    if n > (now : Int) then .error (.badToken "jwt not active")
    else checkExp cfg payload now
  | some (JVal.str _) => .error (.badToken "invalid nbf value")
  | none => checkExp cfg payload now

/-- `jwt.verify(token, secret, {issuer, audience})` (jwt.ts lines
31-34): structure and signature first, then not-before and expiry, then
audience and issuer; success returns the decoded payload object. -/
def jwtVerify (cfg : JWTConfig) (tok : Token) (now : Nat) :
    Except JwtError (List (String × JVal)) :=
  match tok with
  | .malformed _ => .error (.badToken "jwt malformed")
  | .signed payload sec =>
    if sec ≠ cfg.secret then .error (.badToken "invalid signature")
    else checkNbf cfg payload now

/-- String representation of a claim value used where the TS types
declare `string` but the runtime value is whatever the claim held: a
numeric value is represented by its decimal literal (the declaration is
not checked at runtime; no claim of this development observes the
numeric corner). -/
def jvalAsId : JVal → String
  | .str s => s
  | .num n => toString n

/-- The user `JWTStrategy.verify` rebuilds on success (jwt.ts lines
40-47): `{id: decoded.sub, email: decoded.email, ...decoded}`. The
spread places every claim into the object, overwriting `id`/`email`
when the token carries claims of those names; under the model's User
split the core fields are read out of the payload (an absent or
non-string email is the TS `undefined` behind a string cast,
represented by `""`) and every claim except the core keys lands in
`extra`. -/
def userOfPayload (decoded : List (String × JVal)) : User :=
  { id :=
      match lookupField "id" decoded with
      | some v => jvalAsId v
      | none => (lookupField "sub" decoded).elim "" jvalAsId
    email :=
      match lookupField "email" decoded with
      | some (.str s) => s
      | _ => ""
    password := (lookupField "password" decoded).map jvalAsId
    extra := decoded.filter
      (fun kv => kv.1 ≠ "id" && kv.1 ≠ "email" && kv.1 ≠ "password") }

/-- The body of `JWTStrategy.verify` around the `jwt.verify` call
(jwt.ts lines 29-57): the catch block maps the three exception classes
to their three messages; a decoded payload whose `sub` is JS-falsy
(`!decoded.sub`: absent, empty string, or zero) is rejected as
`Invalid token payload`; otherwise the strategy succeeds with the
rebuilt user. -/
def jwtStrategyHandle (res : Except JwtError (List (String × JVal))) :
    AuthResult :=
  match res with
  | .error .expired => { success := false, error := some "Token expired" }
  | .error (.badToken _) => { success := false, error := some "Invalid token" }
  | .error (.otherErr _) =>
    { success := false, error := some "Token verification failed" }
  | .ok decoded =>
    if jsFalsy (lookupField "sub" decoded) then
      { success := false, error := some "Invalid token payload" }
    else { success := true, user := some (userOfPayload decoded) }

/-- `JWTStrategy.verify` (jwt.ts lines 29-57): the library call wrapped
in the handler above. -/
def jwtStrategyVerify (cfg : JWTConfig) (tok : Token) (now : Nat) :
    AuthResult :=
  jwtStrategyHandle (jwtVerify cfg tok now)

/-- `JWTStrategy.authenticate` (jwt.ts lines 22-27): fixed refusal. -/
def jwtAuthenticate (_credentials : LoginCredentials) : AuthResult :=
  { success := false
    error := some
      "JWT strategy does not support direct authentication. Use login flow instead." }


/-! ## Authentication engine (src/core/engine.ts) -/

/-- Lifecycle callbacks (`AuthCallbacks` in src/types/index.ts); each is
awaited and may throw, modelled as `Except String Unit`. -/
structure AuthCallbacks where
  onLogin : Option (User → Except String Unit) := none
  onRegister : Option (User → Except String Unit) := none
  onLogout : Option (User → Except String Unit) := none

/-- The storage adapter (`DatabaseAdapter` in src/types/index.ts) acting
on an explicit `List User` store: lookups are pure reads, `createUser`
returns the created user and the new store, `updateUser` may signal
not-found, `deleteUser` returns the new store. -/
structure DatabaseAdapter where
  findUserByEmail : List User → String → Option User
  findUserById : List User → String → Option User
  createUser : List User → CreateUserData → User × List User
  updateUser : List User → String → List (String × JVal) →
    Except String (User × List User)
  deleteUser : List User → String → List User

/-- The environment an `AuthEngine` instance closes over
(engine.ts constructor, lines 32-37): the adapter, the strategy's
`generateToken` (which may reject), the callbacks, the validation config
(`config.validation || {}`), and the bcrypt primitives. -/
structure AuthEngineEnv where
  adapter : DatabaseAdapter
  generateToken : User → Except String String
  callbacks : AuthCallbacks
  vc : ValidationConfig
  bcryptHash : String → String
  bcryptCompare : String → String → Bool

/-- `sanitizeUser` (engine.ts lines 212-215): drop the password key. -/
def sanitizeUser (u : User) : User :=
  { u with password := none }

/-- Run an optional awaited callback (absent callbacks do nothing). -/
def runCallback (cb : Option (User → Except String Unit)) (u : User) :
    Except String Unit :=
  match cb with
  | some f => f u
  | none => .ok ()

/-- The custom-validator gate at the top of `register` (engine.ts lines
74-83): `some errs` when a configured validator rejects the raw input
(with its optional error map), `none` when it passes or none is set. -/
def customFail (vc : ValidationConfig) (d : CreateUserData) :
    Option (Option (List (String × String))) :=
  match vc.customValidator with
  | some cv =>
    let r := cv d
    if r.success then none else some r.errors
  | none => none

/-- The outcome of a `register` call: the returned `AuthResult`, the
storage state after the call, and how many `adapter.createUser` calls
the engine made (instrumentation for the atomicity claims). -/
structure RegisterOutcome where
  result : AuthResult
  storage : List User
  createCalls : Nat
deriving Repr

/-- The tail of `register` after `adapter.createUser` has persisted the
user (engine.ts lines 110-120 plus the generic catch of lines 131-134):
await `onRegister`, issue the token; either one throwing is caught as
`Registration failed: <message>`, with the created user already stored. -/
def registerPersisted (env : AuthEngineEnv) (created : User × List User) :
    RegisterOutcome :=
  match runCallback env.callbacks.onRegister created.1 with
  | .error msg =>
    { result := { success := false,
                  error := some ("Registration failed: " ++ msg) }
      storage := created.2, createCalls := 1 }
  | .ok _ =>
    match env.generateToken created.1 with
    | .error msg =>
      { result := { success := false,
                    error := some ("Registration failed: " ++ msg) }
        storage := created.2, createCalls := 1 }
    | .ok tok =>
      { result := { success := true,
                    user := some (sanitizeUser created.1),
                    token := some tok }
        storage := created.2, createCalls := 1 }

/-- `AuthEngine.register` (engine.ts lines 71-136): custom validator
gate, effective-schema validation (a ZodError is caught and formatted),
duplicate-email pre-check, bcrypt hash, `createUser`, then the persisted
tail above. -/
def register (env : AuthEngineEnv) (data : CreateUserData)
    (st : List User) : RegisterOutcome :=
  match customFail env.vc data with
  | some errs =>
    { result := { success := false, error := some "Validation failed",
                  errors := errs }
      storage := st, createCalls := 0 }
  | none =>
    match parseRegisterSchema env.vc data with
    | .error issues =>
      { result := { success := false,
                    error := some (firstErrorOf (formatZodError issues)),
                    errors := some (formatZodError issues) }
        storage := st, createCalls := 0 }
    | .ok validated =>
      match env.adapter.findUserByEmail st validated.email with
      | some _ =>
        { result := { success := false, error := some "User already exists",
                      errors := some [("email", "This email is already registered")] }
          storage := st, createCalls := 0 }
      | none =>
        registerPersisted env
          (env.adapter.createUser st
            { email := validated.email,
              password := env.bcryptHash validated.password,
              extra := validated.extra })

/-- The generic invalid-credentials result both login failure branches
return (engine.ts lines 143-158). -/
def invalidCredentials : AuthResult :=
  { success := false
    error := some "Invalid credentials"
    errors := some [("general", "Invalid email or password")] }

/-- `AuthEngine.login` (engine.ts lines 138-186): fixed-schema
validation, email lookup, JS-falsy password-hash check (`!user.password`
is true for an absent or empty hash), bcrypt compare, awaited `onLogin`,
token issuance; a thrown callback or token error is caught as
`Login failed: <message>`. Login performs no storage mutation. -/
def login (env : AuthEngineEnv) (credentials : LoginCredentials)
    (st : List User) : AuthResult :=
  match parseLoginSchema credentials with
  | .error issues =>
    let errors := formatZodError issues
    { success := false, error := some (firstErrorOf errors),
      errors := some errors }
  | .ok validated =>
    match env.adapter.findUserByEmail st validated.email with
    | none => invalidCredentials
    | some user =>
      match user.password with
      | none => invalidCredentials
      | some hash =>
        if hash = "" then invalidCredentials
        else if env.bcryptCompare validated.password hash = false then
          invalidCredentials
        else
          match runCallback env.callbacks.onLogin user with
          | .error msg =>
            { success := false, error := some ("Login failed: " ++ msg) }
          | .ok _ =>
            match env.generateToken user with
            | .error msg =>
              { success := false, error := some ("Login failed: " ++ msg) }
            | .ok tok =>
              { success := true, user := some (sanitizeUser user),
                token := some tok }

/-- `AuthEngine.getUser` (engine.ts lines 192-195): lookup, then
sanitize; absence is `none`. -/
def getUser (env : AuthEngineEnv) (st : List User) (id : String) :
    Option User :=
  match env.adapter.findUserById st id with
  | some u => some (sanitizeUser u)
  | none => none

/-- `AuthEngine.updateUser` (engine.ts lines 197-200): adapter update
passed through, the returned user sanitized. -/
def updateUser (env : AuthEngineEnv) (st : List User) (id : String)
    (data : List (String × JVal)) : Except String (User × List User) :=
  match env.adapter.updateUser st id data with
  | .ok (u, st') => .ok (sanitizeUser u, st')
  | .error e => .error e

/-- `AuthEngine.deleteUser` (engine.ts lines 202-204): pass-through. -/
def deleteUser (env : AuthEngineEnv) (st : List User) (id : String) :
    List User :=
  env.adapter.deleteUser st id

/-- `AuthEngine.logout` (engine.ts lines 206-210): awaited `onLogout`. -/
def logout (env : AuthEngineEnv) (u : User) : Except String Unit :=
  runCallback env.callbacks.onLogout u

/-- `AuthEngine.verifyToken` (engine.ts lines 188-190) for the default
strategy: pure delegation to the strategy's verify. -/
def verifyToken (cfg : JWTConfig) (tok : Token) (now : Nat) : AuthResult :=
  jwtStrategyVerify cfg tok now

/-! ## Sample environment and data (used to instantiate witnesses) -/

/-- A sample storage adapter over the explicit list store: exact-email
lookup, sequential ids, password stored as given. -/
def sampleAdapter : DatabaseAdapter where
  findUserByEmail := fun st email => st.find? (fun u => u.email = email)
  findUserById := fun st id => st.find? (fun u => u.id = id)
  createUser := fun st d =>
    ({ id := "user-" ++ toString st.length, email := d.email,
       password := some d.password, extra := d.extra }, st ++
      [{ id := "user-" ++ toString st.length, email := d.email,
         password := some d.password, extra := d.extra }])
  updateUser := fun st id _ =>
    match st.find? (fun u => u.id = id) with
    | some u => .ok (u, st)
    | none => .error "User not found"
  deleteUser := fun st id => st.filter (fun u => u.id ≠ id)

/-- A sample deterministic stand-in for bcrypt's hash. -/
def sampleHash (s : String) : String := "h:" ++ s

/-- A sample engine environment: sample adapter, ok token issuance, no
callbacks, empty validation config, hash/compare consistent. -/
def sampleEnv : AuthEngineEnv where
  adapter := sampleAdapter
  generateToken := fun _ => .ok "token-abc"
  callbacks := {}
  vc := {}
  bcryptHash := sampleHash
  bcryptCompare := fun p h => h = sampleHash p

/-- `sampleEnv` with an `onRegister` callback that always throws. -/
def throwingRegisterEnv : AuthEngineEnv :=
  { sampleEnv with
    callbacks := { onRegister := some (fun _ => .error "boom") } }

/-- A custom cross-field validator that always rejects. -/
def rejectingValidator : CreateUserData → CustomResult :=
  fun _ => { success := false, errors := some [("age", "Too young")] }

/-- `sampleEnv` with the rejecting custom validator configured. -/
def customValidatorEnv : AuthEngineEnv :=
  { sampleEnv with vc := { customValidator := some rejectingValidator } }

/-- The stored user the sample adapter creates for the registration
`{email := "a@b.com", password := "secret1"}` on an empty store. -/
def storedUser : User :=
  { id := "user-0", email := "a@b.com", password := some "h:secret1",
    extra := [] }

/-- A sample JWT configuration with no issuer or audience. -/
def sampleJwtConfig : JWTConfig := { secret := "s" }

/-- A sample signed payload: subject present, already expired at 99. -/
def sampleExpiredPayload : List (String × JVal) :=
  [("sub", .str "u1"), ("email", .str "a@b.com"), ("iat", .num 0),
   ("exp", .num 50)]

/-- A sample signed payload with no `sub` claim and no expiry. -/
def sampleNoSubPayload : List (String × JVal) :=
  [("email", .str "a@b.com")]

/-- A plain user with nonempty id and no extra attributes. -/
def userPlain : User :=
  { id := "u1", email := "a@b.com", password := none, extra := [] }

/-- A user with an empty id. -/
def userEmptyId : User :=
  { id := "", email := "a@b.com", password := none, extra := [] }

/-- A user whose extra attribute named `sub` shadows the subject claim
through the payload spread. -/
def userSubShadow : User :=
  { userPlain with extra := [("sub", .str "evil")] }

/-- A user with a numeric future `nbf` extra attribute. -/
def userNbfFuture : User :=
  { userPlain with extra := [("nbf", .num 999999999)] }

/-- A user whose numeric `iat` extra back-dates the timestamp base the
library uses, shifting the token's expiry. -/
def userIatShift : User :=
  { userPlain with extra := [("iat", .num 1)] }

/-! ## Claims -/

/-- C1: for every login call where the email matches no stored user,
where the stored user has no password hash (absent or JS-falsy empty),
or where bcrypt comparison of the supplied password against the stored
hash fails, login returns the identical result
`{success:false, error:"Invalid credentials",
errors:{general:"Invalid email or password"}}` in all three cases, so
the caller cannot distinguish a nonexistent account from a wrong
password. -/
theorem login_enumeration_resistance
    (env : AuthEngineEnv) (credentials : LoginCredentials)
    (st : List User) (v : LoginCredentials)
    (hparse : parseLoginSchema credentials = .ok v)
    (hfail :
      env.adapter.findUserByEmail st v.email = none ∨
      (∃ u, env.adapter.findUserByEmail st v.email = some u ∧
        (u.password = none ∨ u.password = some "")) ∨
      (∃ u hsh, env.adapter.findUserByEmail st v.email = some u ∧
        u.password = some hsh ∧ hsh ≠ "" ∧
        env.bcryptCompare v.password hsh = false)) :
    login env credentials st = invalidCredentials ∧
    invalidCredentials =
      { success := false, error := some "Invalid credentials",
        errors := some [("general", "Invalid email or password")] } := by
  refine ⟨?_, rfl⟩
  rcases hfail with hnone | ⟨u, hu, hpw | hpw⟩ | ⟨u, hsh, hu, hpw, hne, hcmp⟩
  · simp only [login, hparse, hnone]
  · simp only [login, hparse, hu, hpw]
  · simp [login, hparse, hu, hpw]
  · simp [login, hparse, hu, hpw, hne, hcmp]

/-- C1 witness: a login for an email absent from an empty store returns
the generic invalid-credentials result. -/
theorem login_enumeration_resistance_witness :
    login sampleEnv { email := "a@b.com", password := "pw" } [] =
      invalidCredentials ∧
    invalidCredentials =
      { success := false, error := some "Invalid credentials",
        errors := some [("general", "Invalid email or password")] } :=
  login_enumeration_resistance sampleEnv
    { email := "a@b.com", password := "pw" } []
    { email := "a@b.com", password := "pw" } rfl (Or.inl rfl)

/-- C4: a registration whose validated email matches an existing stored
user returns the duplicate-email failure, leaves storage unchanged, and
makes no `createUser` call. -/
theorem register_duplicate_email_unchanged
    (env : AuthEngineEnv) (data : CreateUserData) (st : List User)
    (v : CreateUserData) (u : User)
    (hc : customFail env.vc data = none)
    (hp : parseRegisterSchema env.vc data = .ok v)
    (hf : env.adapter.findUserByEmail st v.email = some u) :
    register env data st =
      { result := { success := false, error := some "User already exists",
                    errors := some [("email", "This email is already registered")] }
        storage := st, createCalls := 0 } := by
  simp only [register, hc, hp, hf]

/-- C4 witness: re-registering `a@b.com` against a store that already
holds it fails with the duplicate error and leaves the store as it was. -/
theorem register_duplicate_email_unchanged_witness :
    register sampleEnv
      { email := "a@b.com", password := "secret1", extra := [] }
      [storedUser] =
      { result := { success := false, error := some "User already exists",
                    errors := some [("email", "This email is already registered")] }
        storage := [storedUser], createCalls := 0 } :=
  register_duplicate_email_unchanged sampleEnv
    { email := "a@b.com", password := "secret1", extra := [] }
    [storedUser]
    { email := "a@b.com", password := "secret1", extra := [] }
    storedUser rfl rfl rfl

/-- C6: when a configured custom cross-field validator rejects the raw
input, register returns `Validation failed` with the validator's error
map immediately — schema validation is never consulted, so this holds
even for inputs that would also fail schema validation. -/
theorem register_custom_validator_short_circuit
    (env : AuthEngineEnv) (data : CreateUserData) (st : List User)
    (cv : CreateUserData → CustomResult)
    (hcv : env.vc.customValidator = some cv)
    (hfail : (cv data).success = false) :
    register env data st =
      { result := { success := false, error := some "Validation failed",
                    errors := (cv data).errors }
        storage := st, createCalls := 0 } := by
  have hcf : customFail env.vc data = some (cv data).errors := by
    simp only [customFail, hcv, hfail]
    simp
  simp only [register, hcf]

/-- C6 witness: with the always-rejecting validator configured, an input
whose email would also fail schema validation still yields
`Validation failed` with the validator's map. -/
theorem register_custom_validator_short_circuit_witness :
    register customValidatorEnv
      { email := "not-an-email", password := "x", extra := [] } [] =
      { result := { success := false, error := some "Validation failed",
                    errors := some [("age", "Too young")] }
        storage := [], createCalls := 0 } :=
  register_custom_validator_short_circuit customValidatorEnv
    { email := "not-an-email", password := "x", extra := [] } []
    rejectingValidator rfl rfl

/-- C2: every user value returned by the Engine's register, login,
getUser and updateUser operations has no password attribute —
sanitization is applied on every one of these outward paths, for every
environment (configuration) and input. -/
theorem engine_outputs_sanitized
    (env : AuthEngineEnv) (data : CreateUserData)
    (creds : LoginCredentials) (st : List User) (id : String)
    (patch : List (String × JVal)) :
    (∀ u, (register env data st).result.user = some u →
      u.password = none) ∧
    (∀ u, (login env creds st).user = some u → u.password = none) ∧
    (∀ u, getUser env st id = some u → u.password = none) ∧
    (∀ u st', updateUser env st id patch = .ok (u, st') →
      u.password = none) := by
  refine ⟨?_, ?_, ?_, ?_⟩
  · intro u h
    unfold register registerPersisted at h
    repeat' split at h
    any_goals simp_all [sanitizeUser, invalidCredentials]
    all_goals (subst h; rfl)
  · intro u h
    unfold login at h
    repeat' split at h
    any_goals simp_all [sanitizeUser, invalidCredentials]
    all_goals (subst h; rfl)
  · intro u h
    unfold getUser at h
    repeat' split at h
    any_goals simp_all [sanitizeUser, invalidCredentials]
    all_goals (subst h; rfl)
  · intro u st' h
    unfold updateUser at h
    repeat' split at h
    any_goals simp_all [sanitizeUser, invalidCredentials]
    all_goals (obtain ⟨h1, h2⟩ := h; subst h1; rfl)

/-- C2 witness: the users returned by a successful register, a
successful login, a getUser hit, and an updateUser on the sample
environment all carry no password. -/
theorem engine_outputs_sanitized_witness :
    ({ id := "user-0", email := "a@b.com", password := none,
       extra := [] } : User).password = none ∧
    ({ id := "user-0", email := "a@b.com", password := none,
       extra := [] } : User).password = none ∧
    ({ id := "user-0", email := "a@b.com", password := none,
       extra := [] } : User).password = none ∧
    ({ id := "user-0", email := "a@b.com", password := none,
       extra := [] } : User).password = none :=
  ⟨(engine_outputs_sanitized sampleEnv
      { email := "a@b.com", password := "secret1", extra := [] }
      { email := "a@b.com", password := "secret1" } [] "user-0" []).1
      _ rfl,
   (engine_outputs_sanitized sampleEnv
      { email := "a@b.com", password := "secret1", extra := [] }
      { email := "a@b.com", password := "secret1" } [storedUser]
      "user-0" []).2.1 _ rfl,
   (engine_outputs_sanitized sampleEnv
      { email := "a@b.com", password := "secret1", extra := [] }
      { email := "a@b.com", password := "secret1" } [storedUser]
      "user-0" []).2.2.1 _ rfl,
   (engine_outputs_sanitized sampleEnv
      { email := "a@b.com", password := "secret1", extra := [] }
      { email := "a@b.com", password := "secret1" } [storedUser]
      "user-0" []).2.2.2 _ [storedUser] rfl⟩

/-- C8: when the configured `onRegister` callback throws after the user
has been persisted, the failure is not suppressed — register returns
`{success:false, error:"Registration failed: "+<message>}`, the shape
the generic catch gives every unexpected non-validation exception. -/
theorem register_callback_failure_surfaces
    (env : AuthEngineEnv) (data : CreateUserData) (st : List User)
    (v : CreateUserData) (f : User → Except String Unit) (msg : String)
    (hc : customFail env.vc data = none)
    (hp : parseRegisterSchema env.vc data = .ok v)
    (hf : env.adapter.findUserByEmail st v.email = none)
    (hcb : env.callbacks.onRegister = some f)
    (hthrow : f (env.adapter.createUser st
        { email := v.email, password := env.bcryptHash v.password,
          extra := v.extra }).1 = .error msg) :
    (register env data st).result =
      { success := false,
        error := some ("Registration failed: " ++ msg) } := by
  simp only [register, hc, hp, hf, registerPersisted, runCallback, hcb,
    hthrow]

/-- C8 witness: with an `onRegister` callback that throws `boom`, a
fresh registration fails with `Registration failed: boom`. -/
theorem register_callback_failure_surfaces_witness :
    (register throwingRegisterEnv
      { email := "a@b.com", password := "secret1", extra := [] }
      []).result =
      { success := false, error := some "Registration failed: boom" } :=
  register_callback_failure_surfaces throwingRegisterEnv
    { email := "a@b.com", password := "secret1", extra := [] } []
    { email := "a@b.com", password := "secret1", extra := [] }
    (fun _ => .error "boom") "boom" rfl rfl rfl rfl rfl

/-- C10: registration is not atomic across persistence — when
`createUser` has succeeded and the `onRegister` callback (or the
subsequent `generateToken` call) then throws, register returns a
failure, yet the created user remains in the post-create storage where
`findUserByEmail` finds it, so a retry of the same registration fails
with the duplicate-email error. -/
theorem register_not_atomic_after_persist
    (env : AuthEngineEnv) (data : CreateUserData) (st : List User)
    (v : CreateUserData) (u : User) (st' : List User) (msg : String)
    (hc : customFail env.vc data = none)
    (hp : parseRegisterSchema env.vc data = .ok v)
    (hf : env.adapter.findUserByEmail st v.email = none)
    (hcreate : env.adapter.createUser st
      { email := v.email, password := env.bcryptHash v.password,
        extra := v.extra } = (u, st'))
    (hthrow : runCallback env.callbacks.onRegister u = .error msg ∨
      (runCallback env.callbacks.onRegister u = .ok () ∧
       env.generateToken u = .error msg))
    (hfind : env.adapter.findUserByEmail st' v.email = some u) :
    register env data st =
      { result := { success := false,
                    error := some ("Registration failed: " ++ msg) }
        storage := st', createCalls := 1 } ∧
    register env data st' =
      { result := { success := false, error := some "User already exists",
                    errors := some [("email", "This email is already registered")] }
        storage := st', createCalls := 0 } := by
  constructor
  · simp only [register, hc, hp, hf, hcreate, registerPersisted]
    rcases hthrow with ht | ⟨hok, ht⟩
    · simp [ht]
    · simp [hok, ht]
  · simp only [register, hc, hp, hfind]

/-- C10 witness: with the throwing `onRegister` callback, registering on
an empty store fails with `Registration failed: boom` but stores the
user, and the immediate retry fails with the duplicate-email error. -/
theorem register_not_atomic_after_persist_witness :
    register throwingRegisterEnv
      { email := "a@b.com", password := "secret1", extra := [] } [] =
      { result := { success := false,
                    error := some "Registration failed: boom" }
        storage := [storedUser], createCalls := 1 } ∧
    register throwingRegisterEnv
      { email := "a@b.com", password := "secret1", extra := [] }
      [storedUser] =
      { result := { success := false, error := some "User already exists",
                    errors := some [("email", "This email is already registered")] }
        storage := [storedUser], createCalls := 0 } :=
  register_not_atomic_after_persist throwingRegisterEnv
    { email := "a@b.com", password := "secret1", extra := [] } []
    { email := "a@b.com", password := "secret1", extra := [] }
    storedUser [storedUser] "boom" rfl rfl rfl rfl (Or.inl rfl) rfl

/-- A string is nonempty exactly when its length is at least one
(bridges the fixed login schema's `min(1)` rule to emptiness). -/
theorem string_ne_empty_iff (s : String) : s ≠ "" ↔ 1 ≤ s.length := by
  rw [Nat.one_le_iff_ne_zero]
  constructor
  · intro h hz
    exact h (by
      cases s with
      | mk data =>
        have hd : data.length = 0 := hz
        have hnil : data = [] := List.length_eq_zero.mp hd
        simp [hnil])
  · intro h he
    subst he
    exact h rfl

/-- C7: login validates against a fixed schema — email syntactically
valid and password nonempty — for every engine configuration: two
engines differing only in their `ValidationConfig` produce identical
login results on every input, and the fixed schema accepts exactly the
credentials with a valid email and a nonempty password. -/
theorem login_schema_fixed
    (a : DatabaseAdapter) (gt : User → Except String String)
    (cb : AuthCallbacks) (vc₁ vc₂ : ValidationConfig)
    (bh : String → String) (bc : String → String → Bool)
    (creds : LoginCredentials) (st : List User) :
    login { adapter := a, generateToken := gt, callbacks := cb, vc := vc₁,
            bcryptHash := bh, bcryptCompare := bc } creds st =
      login { adapter := a, generateToken := gt, callbacks := cb, vc := vc₂,
              bcryptHash := bh, bcryptCompare := bc } creds st ∧
    ((∃ v, parseLoginSchema creds = .ok v) ↔
      isValidEmail creds.email = true ∧ creds.password ≠ "") := by
  refine ⟨rfl, ?_⟩
  rw [string_ne_empty_iff]
  by_cases hE : isValidEmail creds.email = true
  · by_cases hP : 1 ≤ creds.password.length
    · simp [parseLoginSchema, issuesOf, defaultEmailRule, loginPasswordRule,
        hE, hP]
    · simp [parseLoginSchema, issuesOf, defaultEmailRule, loginPasswordRule,
        hE, hP]
  · by_cases hP : 1 ≤ creds.password.length
    · simp [parseLoginSchema, issuesOf, defaultEmailRule, loginPasswordRule,
        hE, hP]
    · simp [parseLoginSchema, issuesOf, defaultEmailRule, loginPasswordRule,
        hE, hP]

/-- C7 witness: the login result is unchanged when the validation config
gains a custom validator, and the fixed schema accepts `a@b.com`/`pw`. -/
theorem login_schema_fixed_witness :
    login { adapter := sampleAdapter,
            generateToken := fun _ => .ok "token-abc",
            callbacks := {}, vc := {},
            bcryptHash := sampleHash,
            bcryptCompare := fun p hsh => hsh = sampleHash p }
        { email := "a@b.com", password := "pw" } [] =
      login { adapter := sampleAdapter,
              generateToken := fun _ => .ok "token-abc",
              callbacks := {},
              vc := { customValidator := some rejectingValidator },
              bcryptHash := sampleHash,
              bcryptCompare := fun p hsh => hsh = sampleHash p }
        { email := "a@b.com", password := "pw" } [] ∧
    ((∃ v, parseLoginSchema { email := "a@b.com", password := "pw" } = .ok v) ↔
      isValidEmail "a@b.com" = true ∧ ("pw" : String) ≠ "") :=
  login_schema_fixed sampleAdapter (fun _ => .ok "token-abc") {} {}
    { customValidator := some rejectingValidator } sampleHash
    (fun p hsh => hsh = sampleHash p)
    { email := "a@b.com", password := "pw" } []

/-- Looking up a key in a JS-object association list after a cons. -/
theorem lookupField_cons (p : String × JVal) (l : List (String × JVal))
    (k : String) :
    lookupField k (p :: l) = if p.1 = k then some p.2 else lookupField k l := by
  by_cases h : p.1 = k <;> simp [lookupField, List.find?, h]

/-- A JS object assignment is observable at the assigned key. -/
theorem lookupField_jsObjSet_self (m : List (String × JVal)) (k : String)
    (v : JVal) : lookupField k (jsObjSet m k v) = some v := by
  induction m with
  | nil => simp [jsObjSet, lookupField_cons]
  | cons p rest ih =>
    by_cases h : p.1 = k
    · simp [jsObjSet, h, lookupField_cons]
    · simp [jsObjSet, h, lookupField_cons, ih]

/-- A JS object assignment leaves every other key unchanged. -/
theorem lookupField_jsObjSet_of_ne {k q : String} (h : k ≠ q)
    (m : List (String × JVal)) (v : JVal) :
    lookupField k (jsObjSet m q v) = lookupField k m := by
  have h' : q ≠ k := fun hh => h hh.symm
  induction m with
  | nil => simp [jsObjSet, lookupField_cons, lookupField, h']
  | cons p rest ih =>
    by_cases hp : p.1 = q
    · simp [jsObjSet, hp, lookupField_cons, h']
    · simp [jsObjSet, hp, lookupField_cons, ih]

/-- A key is absent from an association list iff no entry carries it. -/
theorem lookupField_eq_none_iff (k : String) (l : List (String × JVal)) :
    lookupField k l = none ↔ ∀ kv ∈ l, kv.1 ≠ k := by
  simp [lookupField, List.find?_eq_none]

/-- Folding JS object assignments whose keys avoid `k` leaves the value
at `k` unchanged. -/
theorem lookupField_foldl_of_not_key (k : String)
    (l : List (String × JVal)) (h : ∀ kv ∈ l, kv.1 ≠ k) :
    ∀ m, lookupField k
      (l.foldl (fun acc kv => jsObjSet acc kv.1 kv.2) m) =
      lookupField k m := by
  induction l with
  | nil => intro m; rfl
  | cons p rest ih =>
    intro m
    have hp : p.1 ≠ k := h p (List.mem_cons_self p rest)
    have hrest : ∀ kv ∈ rest, kv.1 ≠ k :=
      fun kv hkv => h kv (List.mem_cons_of_mem p hkv)
    simp only [List.foldl_cons]
    rw [ih hrest]
    exact lookupField_jsObjSet_of_ne (Ne.symm hp) m p.2

/-- A key that is neither `email` nor one of the user's extra keys reads
through the generated payload to the base `{sub, email}` object. -/
theorem lookupField_jwtPayload_of_not_key (u : User) {k : String}
    (hk : k ≠ "email") (hx : lookupField k u.extra = none) :
    lookupField k (jwtPayload u) =
      lookupField k [("sub", JVal.str u.id), ("email", JVal.str u.email)] := by
  unfold jwtPayload
  refine lookupField_foldl_of_not_key k _ ?_ _
  intro kv hkv
  rcases List.mem_cons.mp hkv with he | hm
  · rw [he]
    exact fun hh => hk hh.symm
  · exact (lookupField_eq_none_iff k u.extra).mp hx kv hm

/-- The sign-finalizing step is invisible at keys other than
`exp`/`aud`/`iss`. -/
theorem lookupField_signFinalize_of_ne (p : List (String × JVal))
    (e : Option Int) (issuer audience : Option String) {k : String}
    (h1 : k ≠ "exp") (h2 : k ≠ "aud") (h3 : k ≠ "iss") :
    lookupField k (signFinalize p e issuer audience) = lookupField k p := by
  unfold signFinalize
  cases e <;> cases audience <;> cases issuer <;>
    simp [lookupField_jsObjSet_of_ne h1, lookupField_jsObjSet_of_ne h2,
      lookupField_jsObjSet_of_ne h3]

/-- The sign-finalizing step records the computed expiry. -/
theorem lookupField_signFinalize_exp (p : List (String × JVal)) (x : Int)
    (issuer audience : Option String) :
    lookupField "exp" (signFinalize p (some x) issuer audience) =
      some (.num x) := by
  unfold signFinalize
  cases audience <;> cases issuer <;>
    simp [lookupField_jsObjSet_self,
      lookupField_jsObjSet_of_ne (show "exp" ≠ "aud" by decide),
      lookupField_jsObjSet_of_ne (show "exp" ≠ "iss" by decide)]

/-- The sign-finalizing step records the audience option. -/
theorem lookupField_signFinalize_aud (p : List (String × JVal))
    (e : Option Int) (issuer : Option String) (a : String) :
    lookupField "aud" (signFinalize p e issuer (some a)) =
      some (.str a) := by
  unfold signFinalize
  cases e <;> cases issuer <;>
    simp [lookupField_jsObjSet_self,
      lookupField_jsObjSet_of_ne (show "aud" ≠ "iss" by decide)]

/-- The sign-finalizing step records the issuer option. -/
theorem lookupField_signFinalize_iss (p : List (String × JVal))
    (e : Option Int) (audience : Option String) (i : String) :
    lookupField "iss" (signFinalize p e (some i) audience) =
      some (.str i) := by
  unfold signFinalize
  cases e <;> cases audience <;> simp [lookupField_jsObjSet_self]

/-- C3 counterexample: the round-trip claim fails as stated at concrete
inputs, each verified strictly inside the configured 7-day lifetime.
A user with an empty id yields a token whose `sub` claim is the falsy
empty string, rejected as `Invalid token payload`; a user with an extra
attribute named `sub` yields a verified user whose id is the shadowing
value `evil`, not the user's id `u1`; a user with a future numeric
`nbf` extra fails verification as not yet active (`Invalid token`); and
a user with a numeric `iat` extra back-dates the timestamp base, so a
verification within the configured lifetime reports `Token expired`. -/
theorem jwt_roundtrip_counterexample :
    (0 : Nat) < 0 + sampleJwtConfig.expiresIn ∧
    (jwtGenerateToken sampleJwtConfig userEmptyId 0).map
      (fun tok => jwtStrategyVerify sampleJwtConfig tok 0) =
      .ok { success := false, error := some "Invalid token payload" } ∧
    (jwtGenerateToken sampleJwtConfig userSubShadow 0).map
      (fun tok => ((jwtStrategyVerify sampleJwtConfig tok 0).success,
        (jwtStrategyVerify sampleJwtConfig tok 0).user.map User.id)) =
      .ok (true, some "evil") ∧
    userSubShadow.id = "u1" ∧ ("evil" : String) ≠ "u1" ∧
    (jwtGenerateToken sampleJwtConfig userNbfFuture 0).map
      (fun tok => jwtStrategyVerify sampleJwtConfig tok 0) =
      .ok { success := false, error := some "Invalid token" } ∧
    (1000000 : Nat) < 1000000 + sampleJwtConfig.expiresIn ∧
    (jwtGenerateToken sampleJwtConfig userIatShift 1000000).map
      (fun tok => jwtStrategyVerify sampleJwtConfig tok 1000000) =
      .ok { success := false, error := some "Token expired" } :=
  ⟨by decide, rfl, rfl, rfl, by decide, rfl, by decide, rfl⟩

/-- C3 (amended): verifying a token that `generateToken` actually
produced — for any user whose id is nonempty and whose extra attributes
include no key among `id` (a core key of the object split), `sub`,
`iat`, `nbf` (claims the payload spread would forge or shift; each
failure is exhibited in the counterexample) — with the same secret,
issuer and audience configuration, at any time strictly before the
token's expiration, succeeds and yields a user whose id equals the
original user's id. Payloads the library refuses to sign (an `exp`
extra, or an `iss`/`aud` extra alongside the matching configured
option) produce no token, so no verification arises for them. -/
theorem jwt_roundtrip (cfg : JWTConfig) (u : User) (now t : Nat)
    (tok : Token)
    (hid : u.id ≠ "")
    (hidk : lookupField "id" u.extra = none)
    (hsub : lookupField "sub" u.extra = none)
    (hiat : lookupField "iat" u.extra = none)
    (hnbf : lookupField "nbf" u.extra = none)
    (hgen : jwtGenerateToken cfg u now = .ok tok)
    (ht : t < now + cfg.expiresIn) :
    (jwtStrategyVerify cfg tok t).success = true ∧
    ∃ vu, (jwtStrategyVerify cfg tok t).user = some vu ∧
      vu.id = u.id := by
  have hPsub : lookupField "sub" (jwtPayload u) = some (JVal.str u.id) := by
    rw [lookupField_jwtPayload_of_not_key u (by decide) hsub]; rfl
  have hPiat : lookupField "iat" (jwtPayload u) = none := by
    rw [lookupField_jwtPayload_of_not_key u (by decide) hiat]; rfl
  have hPnbf : lookupField "nbf" (jwtPayload u) = none := by
    rw [lookupField_jwtPayload_of_not_key u (by decide) hnbf]; rfl
  have hPid : lookupField "id" (jwtPayload u) = none := by
    rw [lookupField_jwtPayload_of_not_key u (by decide) hidk]; rfl
  unfold jwtGenerateToken jwtSign at hgen
  rw [hPiat] at hgen
  by_cases hE : (lookupField "exp" (jwtPayload u)).isSome
  · rw [if_pos hE] at hgen; simp at hgen
  rw [if_neg hE] at hgen
  by_cases hI : ((optTruthy cfg.issuer).isSome &&
      (lookupField "iss" (jwtPayload u)).isSome) = true
  · rw [if_pos hI] at hgen; simp at hgen
  rw [if_neg hI] at hgen
  by_cases hA : ((optTruthy cfg.audience).isSome &&
      (lookupField "aud" (jwtPayload u)).isSome) = true
  · rw [if_pos hA] at hgen; simp at hgen
  rw [if_neg hA] at hgen
  have hgen2 : Except.ok (Token.signed
      (signFinalize (jsObjSet (jwtPayload u) "iat" (.num (now : Int)))
        (some ((now : Int) + (cfg.expiresIn : Int)))
        (optTruthy cfg.issuer) (optTruthy cfg.audience)) cfg.secret) =
      (Except.ok tok : Except String Token) := hgen
  injection hgen2 with htok
  subst htok
  have hFnbf : lookupField "nbf"
      (signFinalize (jsObjSet (jwtPayload u) "iat" (.num (now : Int)))
        (some ((now : Int) + (cfg.expiresIn : Int)))
        (optTruthy cfg.issuer) (optTruthy cfg.audience)) = none := by
    rw [lookupField_signFinalize_of_ne _ _ _ _ (by decide) (by decide)
      (by decide)]
    rw [lookupField_jsObjSet_of_ne (by decide)]
    exact hPnbf
  have hFexp : lookupField "exp"
      (signFinalize (jsObjSet (jwtPayload u) "iat" (.num (now : Int)))
        (some ((now : Int) + (cfg.expiresIn : Int)))
        (optTruthy cfg.issuer) (optTruthy cfg.audience)) =
      some (.num ((now : Int) + (cfg.expiresIn : Int))) :=
    lookupField_signFinalize_exp _ _ _ _
  have hFsub : lookupField "sub"
      (signFinalize (jsObjSet (jwtPayload u) "iat" (.num (now : Int)))
        (some ((now : Int) + (cfg.expiresIn : Int)))
        (optTruthy cfg.issuer) (optTruthy cfg.audience)) =
      some (JVal.str u.id) := by
    rw [lookupField_signFinalize_of_ne _ _ _ _ (by decide) (by decide)
      (by decide)]
    rw [lookupField_jsObjSet_of_ne (by decide)]
    exact hPsub
  have hFid : lookupField "id"
      (signFinalize (jsObjSet (jwtPayload u) "iat" (.num (now : Int)))
        (some ((now : Int) + (cfg.expiresIn : Int)))
        (optTruthy cfg.issuer) (optTruthy cfg.audience)) = none := by
    rw [lookupField_signFinalize_of_ne _ _ _ _ (by decide) (by decide)
      (by decide)]
    rw [lookupField_jsObjSet_of_ne (by decide)]
    exact hPid
  have hlt : (t : Int) < (now : Int) + (cfg.expiresIn : Int) := by
    exact_mod_cast ht
  have hver : jwtVerify cfg (.signed
      (signFinalize (jsObjSet (jwtPayload u) "iat" (.num (now : Int)))
        (some ((now : Int) + (cfg.expiresIn : Int)))
        (optTruthy cfg.issuer) (optTruthy cfg.audience)) cfg.secret) t =
      .ok (signFinalize (jsObjSet (jwtPayload u) "iat" (.num (now : Int)))
        (some ((now : Int) + (cfg.expiresIn : Int)))
        (optTruthy cfg.issuer) (optTruthy cfg.audience)) := by
    simp only [jwtVerify]
    rw [if_neg (fun hh : cfg.secret ≠ cfg.secret => hh rfl)]
    simp only [checkNbf, hFnbf]
    simp only [checkExp, hFexp]
    rw [if_neg (not_le.mpr hlt)]
    simp only [checkAudIss]
    cases hA2 : optTruthy cfg.audience with
    | some a =>
      cases hI2 : optTruthy cfg.issuer with
      | some i =>
        simp [lookupField_signFinalize_aud, lookupField_signFinalize_iss]
      | none => simp [lookupField_signFinalize_aud]
    | none =>
      cases hI2 : optTruthy cfg.issuer with
      | some i => simp [lookupField_signFinalize_iss]
      | none => rfl
  have htr : jsTruthy (JVal.str u.id) = true := by
    simp [jsTruthy, hid]
  constructor
  · simp only [jwtStrategyVerify, hver, jwtStrategyHandle, hFsub, jsFalsy,
      htr]
    rfl
  · refine ⟨userOfPayload
      (signFinalize (jsObjSet (jwtPayload u) "iat" (.num (now : Int)))
        (some ((now : Int) + (cfg.expiresIn : Int)))
        (optTruthy cfg.issuer) (optTruthy cfg.audience)), ?_, ?_⟩
    · simp only [jwtStrategyVerify, hver, jwtStrategyHandle, hFsub, jsFalsy,
        htr]
      rfl
    · simp only [userOfPayload, hFid, hFsub]
      rfl

/-- C3 witness (amended): the round trip holds for the plain user `u1`
with no extra attributes, verified at issuance time, well before the
7-day expiry. -/
theorem jwt_roundtrip_witness :
    (jwtStrategyVerify sampleJwtConfig
      (.signed [("sub", .str "u1"), ("email", .str "a@b.com"),
        ("iat", .num 0), ("exp", .num 604800)] "s") 0).success = true ∧
    ∃ vu, (jwtStrategyVerify sampleJwtConfig
      (.signed [("sub", .str "u1"), ("email", .str "a@b.com"),
        ("iat", .num 0), ("exp", .num 604800)] "s") 0).user = some vu ∧
      vu.id = userPlain.id :=
  jwt_roundtrip sampleJwtConfig userPlain 0 0
    (.signed [("sub", .str "u1"), ("email", .str "a@b.com"),
      ("iat", .num 0), ("exp", .num 604800)] "s")
    (by decide) rfl rfl rfl rfl rfl (by decide)

/-- C5: the default strategy's verify reports three distinct failure
causes with three distinct messages — every `JsonWebTokenError` other
than expiry (malformed structure, bad signature, not-before failure,
issuer or audience mismatch) yields `Invalid token`, an elapsed
expiration yields `Token expired`, and the catch-all maps every
exogenous non-JWT exception to `Token verification failed` (the
modelled library raises only the first two classes, so the catch-all is
stated over the handler's full input domain). -/
theorem jwt_verify_error_messages (cfg : JWTConfig) (tok : Token)
    (now : Nat) :
    (∀ m, jwtVerify cfg tok now = .error (.badToken m) →
      jwtStrategyVerify cfg tok now =
        { success := false, error := some "Invalid token" }) ∧
    (jwtVerify cfg tok now = .error .expired →
      jwtStrategyVerify cfg tok now =
        { success := false, error := some "Token expired" }) ∧
    (∀ m, jwtStrategyHandle (.error (.otherErr m)) =
      { success := false, error := some "Token verification failed" }) := by
  refine ⟨?_, ?_, fun m => rfl⟩
  · intro m h
    simp only [jwtStrategyVerify, h, jwtStrategyHandle]
  · intro h
    simp only [jwtStrategyVerify, h, jwtStrategyHandle]

/-- C5 witness: a malformed token, an expired token and a non-JWT
exception produce their three distinct messages on the sample
configuration. -/
theorem jwt_verify_error_messages_witness :
    jwtStrategyVerify sampleJwtConfig (.malformed "x") 0 =
      { success := false, error := some "Invalid token" } ∧
    jwtStrategyVerify sampleJwtConfig (.signed sampleExpiredPayload "s")
      99 = { success := false, error := some "Token expired" } ∧
    jwtStrategyHandle (.error (.otherErr "heap out of memory")) =
      { success := false, error := some "Token verification failed" } :=
  ⟨(jwt_verify_error_messages sampleJwtConfig (.malformed "x") 0).1
      "jwt malformed" rfl,
   (jwt_verify_error_messages sampleJwtConfig
      (.signed sampleExpiredPayload "s") 99).2.1 rfl,
   (jwt_verify_error_messages sampleJwtConfig (.malformed "x") 0).2.2
      "heap out of memory"⟩

/-- C9: verify has a fourth failure outcome beyond the three specified
causes — a token whose signature and timestamps check out but whose
decoded payload has a JS-falsy `sub` claim (absent, empty, or zero)
yields `{success:false, error:"Invalid token payload"}`, not a success
and not one of the three specified errors. -/
theorem jwt_verify_missing_sub (cfg : JWTConfig) (tok : Token) (now : Nat)
    (payload : List (String × JVal))
    (hok : jwtVerify cfg tok now = .ok payload)
    (hsub : lookupField "sub" payload = none ∨
      lookupField "sub" payload = some (.str "") ∨
      lookupField "sub" payload = some (.num 0)) :
    jwtStrategyVerify cfg tok now =
      { success := false, error := some "Invalid token payload" } := by
  simp only [jwtStrategyVerify, hok, jwtStrategyHandle]
  rcases hsub with h | h | h <;> rw [h] <;> simp [jsFalsy, jsTruthy]

/-- C9 witness: a correctly signed, unexpiring token with no `sub`
claim is rejected with `Invalid token payload`. -/
theorem jwt_verify_missing_sub_witness :
    jwtStrategyVerify sampleJwtConfig (.signed sampleNoSubPayload "s") 0 =
      { success := false, error := some "Invalid token payload" } :=
  jwt_verify_missing_sub sampleJwtConfig (.signed sampleNoSubPayload "s")
    0 sampleNoSubPayload rfl (Or.inl rfl)
